import Mathlib

/-!
Verification of the snake-game state machine in `src/snake-game.tsx`.

The TypeScript component keeps its whole game state in React `useState`
cells (`snake`, `direction`, `food`, `gameOver`, `score`, `isPlaying`,
`difficulty`); we gather them into a `GameState` record.  Coordinates are
JavaScript numbers; every value the program manipulates is an integer, so
we model them as `Int`, with JavaScript's `%` (truncated remainder) being
`Int.tmod`.  `Math.floor(Math.random() * GRID_SIZE)` always lands in
`{0, …, GRID_SIZE-1}`, so a random draw is modelled as a pair of
`Fin 20` supplied as an explicit argument to the functions that call
`getRandomPosition`.
-/

namespace SnakeGame

/-- Source: `type Direction = 'UP' | 'DOWN' | 'LEFT' | 'RIGHT'` -/
inductive Direction where
  | UP
  | DOWN
  | LEFT
  | RIGHT
deriving DecidableEq, Repr

/-- Source: `type Position = [number, number]` (JS numbers; all values produced are integers). -/
abbrev Position := Int × Int

/-- Source: `type Difficulty = 'Easy' | 'Normal' | 'Hard'` -/
inductive Difficulty where
  | Easy
  | Normal
  | Hard
deriving DecidableEq, Repr

/-- Source: `const GRID_SIZE = 20` -/
def GRID_SIZE : Int := 20

/-- Source: `const INITIAL_SNAKE: Position[] = [[5, 5]]` -/
def INITIAL_SNAKE : List Position := [(5, 5)]

/-- Source: `const INITIAL_DIRECTION: Direction = 'RIGHT'` -/
def INITIAL_DIRECTION : Direction := .RIGHT

/-- Source: `const GAME_SPEEDS = { Easy: 200, Normal: 150, Hard: 100 }` -/
def GAME_SPEEDS : Difficulty → Nat
  | .Easy => 200
  | .Normal => 150
  | .Hard => 100

/-- One draw of `Math.random()` per axis, after `Math.floor(· * GRID_SIZE)`:
a value in `{0, …, 19}` for each coordinate. -/
abbrev Rand := Fin 20 × Fin 20

/-- Source `getRandomPosition()`: `[Math.floor(Math.random()*GRID_SIZE), Math.floor(Math.random()*GRID_SIZE)]`,
with the two floored draws passed in as `r`. -/
def getRandomPosition (r : Rand) : Position :=
  ((r.1 : Int), (r.2 : Int))

/-- The React state cells of `SnakeGame`, gathered into one record
(the rendering-only cells `isMobile`, `cellSize` and the DOM refs are
presentation and carry no game logic). -/
structure GameState where
  snake : List Position
  direction : Direction
  food : Position
  gameOver : Bool
  score : Nat
  isPlaying : Bool
  difficulty : Difficulty
deriving DecidableEq, Repr

/-- The `useState` initial values: `INITIAL_SNAKE`, `INITIAL_DIRECTION`,
food `[0, 0]`, `gameOver = false`, `score = 0`, `isPlaying = false`,
`difficulty = 'Normal'`. -/
def initialState : GameState :=
  { snake := INITIAL_SNAKE
    direction := INITIAL_DIRECTION
    food := (0, 0)
    gameOver := false
    score := 0
    isPlaying := false
    difficulty := .Normal }

/-- The `switch (direction)` block of `moveSnake` computing `newHead`:
JavaScript `%` on integers is truncated remainder, `Int.tmod`. -/
def newHeadFor (head : Position) (d : Direction) : Position :=
  match d with
  | .UP => (head.1, Int.tmod (head.2 - 1 + GRID_SIZE) GRID_SIZE)
  | .DOWN => (head.1, Int.tmod (head.2 + 1) GRID_SIZE)
  | .LEFT => (Int.tmod (head.1 - 1 + GRID_SIZE) GRID_SIZE, head.2)
  | .RIGHT => (Int.tmod (head.1 + 1) GRID_SIZE, head.2)

/-- Source `moveSnake` (the tick handler).  Control flow mirrors the source:
early return when `gameOver || !isPlaying`; `newSnake.some((segment,
index) => index !== 0 && segment == newHead)` is membership of `newHead`
among the segments at indices ≥ 1, i.e. in the tail `rest`; on collision
only `gameOver := true` and `isPlaying := false` are set; otherwise
`unshift` prepends `newHead`, and eating food replaces the food via
`getRandomPosition` (draw `r`) and increments the score, while not eating
pops the last element (`dropLast`).  The `[]` case cannot arise from the
component (the snake is never empty); the source would throw on it, we
return the state unchanged. -/
def moveSnake (s : GameState) (r : Rand) : GameState :=
  if s.gameOver || !s.isPlaying then s
  else
    match s.snake with
    | [] => s
    | head :: rest =>
      let newHead := newHeadFor head s.direction
      if newHead ∈ rest then
        { s with gameOver := true, isPlaying := false }
      else
        let grown := newHead :: head :: rest
        if newHead = s.food then
          { s with snake := grown
                   food := getRandomPosition r
                   score := s.score + 1 }
        else
          { s with snake := grown.dropLast }

/-- The `switch (e.key)` body of `handleKeyPress`: each arrow key updates
`direction` via `setDirection(prev => …)`, comparing against the *current*
value `prev`. -/
def keyDirection (key : Direction) (prev : Direction) : Direction :=
  match key with
  | .UP => if prev ≠ .DOWN then .UP else prev
  | .DOWN => if prev ≠ .UP then .DOWN else prev
  | .LEFT => if prev ≠ .RIGHT then .LEFT else prev
  | .RIGHT => if prev ≠ .LEFT then .RIGHT else prev

/-- Source `handleKeyPress`: ignored unless `isPlaying`; otherwise updates only
`direction` through `keyDirection`. -/
def handleKeyPress (s : GameState) (key : Direction) : GameState :=
  if !s.isPlaying then s
  else { s with direction := keyDirection key s.direction }

/-- Source `handleTouchStart(newDirection)`: ignored unless `isPlaying`; the
four-clause guard rejects exact 180° turns relative to the current
`direction`; otherwise sets `direction := newDirection`. -/
def handleTouchStart (s : GameState) (newDirection : Direction) : GameState :=
  if !s.isPlaying then s
  else if (s.direction = .UP ∧ newDirection = .DOWN) ∨
          (s.direction = .DOWN ∧ newDirection = .UP) ∨
          (s.direction = .LEFT ∧ newDirection = .RIGHT) ∨
          (s.direction = .RIGHT ∧ newDirection = .LEFT) then s
  else { s with direction := newDirection }

/-- Source `resetGame`: snake, direction back to the initial constants, fresh
random food (draw `r`), `gameOver := false`, `score := 0`,
`isPlaying := true`. -/
def resetGame (s : GameState) (r : Rand) : GameState :=
  { s with snake := INITIAL_SNAKE
           direction := INITIAL_DIRECTION
           food := getRandomPosition r
           gameOver := false
           score := 0
           isPlaying := true }

/-- Source `startGame`: `resetGame()` followed by `setIsPlaying(true)` (already
true after `resetGame`). -/
def startGame (s : GameState) (r : Rand) : GameState :=
  { resetGame s r with isPlaying := true }

/-- Source `handleDifficultyChange(value)`: set the difficulty, then, if the
session was playing, `resetGame()` (which needs a random draw `r`). -/
def handleDifficultyChange (s : GameState) (v : Difficulty) (r : Rand) : GameState :=
  let s1 := { s with difficulty := v }
  if s1.isPlaying then resetGame s1 r else s1

/-- The opposite heading (spec vocabulary: a "reversal" requests
`opposite` of the current heading). -/
def opposite : Direction → Direction
  | .UP => .DOWN
  | .DOWN => .UP
  | .LEFT => .RIGHT
  | .RIGHT => .LEFT

/-- The events that mutate game state: a clock tick, a key press, a touch
press, an explicit restart (Start Game / Play Again button), and a
difficulty selection.  Randomness consumed by an event is carried in the
event. -/
inductive Event where
  | tick (r : Rand)
  | key (d : Direction)
  | touch (d : Direction)
  | reset (r : Rand)
  | setDiff (v : Difficulty) (r : Rand)

/-- Dispatch one event to its handler. -/
def stepEvent (s : GameState) : Event → GameState
  | .tick r => moveSnake s r
  | .key d => handleKeyPress s d
  | .touch d => handleTouchStart s d
  | .reset r => resetGame s r
  | .setDiff v r => handleDifficultyChange s v r

/-- Run a sequence of events from a state. -/
def runEvents (s : GameState) : List Event → GameState
  | [] => s
  | e :: es => runEvents (stepEvent s e) es

/-- A cell lies inside the 20×20 grid. -/
def inGrid (p : Position) : Prop :=
  0 ≤ p.1 ∧ p.1 < GRID_SIZE ∧ 0 ≤ p.2 ∧ p.2 < GRID_SIZE

instance (p : Position) : Decidable (inGrid p) := by
  unfold inGrid; infer_instance


/-! ## Helper lemmas -/

lemma tmod20_nonneg_lt (a : Int) (ha : 0 ≤ a) :
    0 ≤ Int.tmod a 20 ∧ Int.tmod a 20 < 20 := by
  rw [Int.tmod_eq_emod ha (by norm_num)]
  exact ⟨Int.emod_nonneg a (by norm_num), Int.emod_lt_of_pos a (by norm_num)⟩

lemma newHeadFor_inGrid (p : Position) (d : Direction) (hp : inGrid p) :
    inGrid (newHeadFor p d) := by
  obtain ⟨h1, h2, h3, h4⟩ := hp
  cases d <;>
    simp only [newHeadFor, inGrid, GRID_SIZE] at * <;>
    first
      | exact ⟨h1, h2, (tmod20_nonneg_lt _ (by omega)).1, (tmod20_nonneg_lt _ (by omega)).2⟩
      | exact ⟨(tmod20_nonneg_lt _ (by omega)).1, (tmod20_nonneg_lt _ (by omega)).2, h3, h4⟩

/-! ## Claims -/

/-- Claim C7: a single direction request for the exact opposite of the
current heading is rejected (the heading stays put), and a request for
any non-opposite heading is accepted, both for key presses and for the
touch buttons. -/
theorem C7_single_reversal_rejected (s : GameState) (d : Direction)
    (hp : s.isPlaying = true) :
    (d = opposite s.direction →
      (handleKeyPress s d).direction = s.direction ∧
      (handleTouchStart s d).direction = s.direction) ∧
    (d ≠ opposite s.direction →
      (handleKeyPress s d).direction = d ∧
      (handleTouchStart s d).direction = d) := by
  cases hd : s.direction <;> cases d <;>
    simp [handleKeyPress, handleTouchStart, keyDirection, opposite, hp, hd]

/-- Witness for C7 at a concrete state: heading RIGHT, request LEFT (the
exact opposite) is rejected. -/
theorem C7_single_reversal_rejected_witness :
    (Direction.LEFT = opposite (startGame initialState (0, 0)).direction →
      (handleKeyPress (startGame initialState (0, 0)) .LEFT).direction =
        (startGame initialState (0, 0)).direction ∧
      (handleTouchStart (startGame initialState (0, 0)) .LEFT).direction =
        (startGame initialState (0, 0)).direction) ∧
    (Direction.LEFT ≠ opposite (startGame initialState (0, 0)).direction →
      (handleKeyPress (startGame initialState (0, 0)) .LEFT).direction = .LEFT ∧
      (handleTouchStart (startGame initialState (0, 0)) .LEFT).direction = .LEFT) :=
  C7_single_reversal_rejected (startGame initialState (0, 0)) .LEFT rfl

/-- Claim C2 counterexample: the code validates each request against the
current `direction` value, not against the heading committed at the last
tick.  With committed heading UP at a tick, the two key requests LEFT
then DOWN inside one tick window are both accepted, so the heading at the
next tick is DOWN — the exact opposite of the heading used at the
previous tick. -/
theorem C2_two_step_reversal_counterexample :
    (moveSnake { initialState with direction := .UP, isPlaying := true } (0, 0)).direction
      = Direction.UP ∧
    (handleKeyPress (handleKeyPress
        (moveSnake { initialState with direction := .UP, isPlaying := true } (0, 0))
        .LEFT) .DOWN).direction
      = opposite Direction.UP := by decide

/-- Claim C2 amended: each direction request (key or touch) is validated
against the `direction` value current at the moment of the request —
which may itself be a request accepted earlier in the same tick window —
rejecting only the exact opposite of that current value; a sequence of
two requests within one tick window can therefore reverse the heading
across ticks. -/
theorem C2_amended_checked_against_current (s : GameState) (d : Direction)
    (hp : s.isPlaying = true) :
    (handleKeyPress s d).direction
      = (if d = opposite s.direction then s.direction else d) ∧
    (handleTouchStart s d).direction
      = (if d = opposite s.direction then s.direction else d) := by
  cases hd : s.direction <;> cases d <;>
    simp [handleKeyPress, handleTouchStart, keyDirection, opposite, hp, hd]

/-- Witness for the amended C2 at a concrete state: heading RIGHT,
request UP (not the opposite) is accepted by both handlers. -/
theorem C2_amended_checked_against_current_witness :
    (handleKeyPress (startGame initialState (0, 0)) .UP).direction
      = (if Direction.UP = opposite (startGame initialState (0, 0)).direction
          then (startGame initialState (0, 0)).direction else .UP) ∧
    (handleTouchStart (startGame initialState (0, 0)) .UP).direction
      = (if Direction.UP = opposite (startGame initialState (0, 0)).direction
          then (startGame initialState (0, 0)).direction else .UP) :=
  C2_amended_checked_against_current (startGame initialState (0, 0)) .UP rfl

/-- Claim C10: the self-collision check skips index 0 of the pre-move
body, so a tick from a length-1 Organism never flips `gameOver`. -/
theorem C10_length_one_no_game_over (s : GameState) (r : Rand)
    (h1 : s.snake.length = 1) :
    (moveSnake s r).gameOver = s.gameOver := by
  rcases s with ⟨sn, d, f, go, sc, ip, df⟩
  obtain ⟨p, rfl⟩ : ∃ p, sn = [p] := by
    cases sn with
    | nil => simp at h1
    | cons a t =>
      cases t with
      | nil => exact ⟨a, rfl⟩
      | cons b t2 => simp [List.length] at h1
  simp only [moveSnake]
  split
  · rfl
  · simp only [List.mem_nil_iff, if_false]
    split <;> rfl

/-- Witness for C10: a tick from the initial single-cell state leaves
`gameOver` untouched. -/
theorem C10_length_one_no_game_over_witness :
    (moveSnake initialState (0, 0)).gameOver = initialState.gameOver :=
  C10_length_one_no_game_over initialState (0, 0) (by decide)

/-- Claim C8 counterexample: the wraparound arithmetic does NOT return an
in-grid value "regardless of input magnitude or sign" — JavaScript `%` is
a truncated remainder, so feeding the head-step arithmetic a negative
coordinate yields a negative result: stepping RIGHT from x = -5 gives
`(-5 + 1) % 20 = -4`, outside `[0, GRID_SIZE)`. -/
theorem C8_wrap_counterexample :
    ¬ inGrid (newHeadFor (-5, 0) .RIGHT) := by decide

lemma moveSnake_mem (sn : List Position) (d : Direction) (f : Position) (go : Bool)
    (sc : Nat) (ip : Bool) (df : Difficulty) (r : Rand) (c : Position)
    (hc : c ∈ (moveSnake ⟨sn, d, f, go, sc, ip, df⟩ r).snake) :
    c ∈ sn ∨ ∃ hd rest, sn = hd :: rest ∧ c = newHeadFor hd d := by
  cases sn with
  | nil =>
    simp only [moveSnake] at hc
    split at hc <;> exact Or.inl hc
  | cons hd rest =>
    simp only [moveSnake] at hc
    split at hc
    · exact Or.inl hc
    · split at hc
      · exact Or.inl hc
      · split at hc
        · simp only [List.mem_cons] at hc
          rcases hc with rfl | hc
          · exact Or.inr ⟨hd, rest, rfl, rfl⟩
          · exact Or.inl (List.mem_cons.mpr hc)
        · simp only at hc
          have hc2 := List.dropLast_subset _ hc
          rw [List.mem_cons] at hc2
          rcases hc2 with rfl | hc2
          · exact Or.inr ⟨hd, rest, rfl, rfl⟩
          · exact Or.inl hc2

lemma stepEvent_snake_inGrid (t : GameState) (e : Event)
    (ht : ∀ c ∈ t.snake, inGrid c) :
    ∀ c ∈ (stepEvent t e).snake, inGrid c := by
  intro c hc
  cases e with
  | tick r1 =>
    obtain ⟨sn, d, f, go, sc, ip, df⟩ := t
    rcases moveSnake_mem sn d f go sc ip df r1 c hc with h | ⟨hd, rest, rfl, rfl⟩
    · exact ht c h
    · exact newHeadFor_inGrid hd d (ht hd (List.mem_cons_self _ _))
  | key d =>
    simp only [stepEvent, handleKeyPress] at hc
    split at hc <;> exact ht c hc
  | touch d =>
    simp only [stepEvent, handleTouchStart] at hc
    split at hc
    · exact ht c hc
    · split at hc <;> exact ht c hc
  | reset r1 =>
    simp only [stepEvent, resetGame, INITIAL_SNAKE, List.mem_singleton] at hc
    subst hc
    decide
  | setDiff v r1 =>
    simp only [stepEvent, handleDifficultyChange] at hc
    split at hc
    · simp only [resetGame, INITIAL_SNAKE, List.mem_singleton] at hc
      subst hc
      decide
    · exact ht c hc

/-- Claim C8 amended: for every head cell already inside the grid (which
covers every reachable position), the wraparound arithmetic returns a
cell inside `[0, GRID_SIZE)` on each axis; consequently every cell of the
Organism — in particular its head — stays inside the 20×20 grid in every
state reachable from a started session. -/
theorem C8_amended_wrap_in_grid :
    (∀ p d, inGrid p → inGrid (newHeadFor p d)) ∧
    (∀ s r es c, c ∈ (runEvents (resetGame s r) es).snake → inGrid c) := by
  refine ⟨newHeadFor_inGrid, ?_⟩
  intro s r es
  have general :
      ∀ (l : List Event) (t : GameState),
        (∀ c ∈ t.snake, inGrid c) →
        ∀ c ∈ (runEvents t l).snake, inGrid c := by
    intro l
    induction l with
    | nil => intro t ht; exact ht
    | cons e l ih => intro t ht; exact ih (stepEvent t e) (stepEvent_snake_inGrid t e ht)
  refine general es (resetGame s r) ?_
  intro c hc
  simp only [resetGame, INITIAL_SNAKE, List.mem_singleton] at hc
  subst hc
  decide

/-- Witness for the amended C8: the head step from the initial cell
(5, 5) stays inside the grid. -/
theorem C8_amended_wrap_in_grid_witness :
    inGrid (newHeadFor (5, 5) .RIGHT) :=
  C8_amended_wrap_in_grid.1 (5, 5) .RIGHT (by decide)

/-- Claim C1 counterexample: `getRandomPosition` draws a uniformly random
cell with no occupancy check, so a session start can place the Food
directly on the Organism.  With random draw (5, 5), `resetGame` puts the
Food on the initial snake cell (5, 5) — occupancy 1 of 400 cells, far
short of a full grid. -/
theorem C1_food_on_snake_counterexample :
    (resetGame initialState (5, 5)).food ∈ (resetGame initialState (5, 5)).snake := by
  decide

/-- Claim C1 amended: every Food cell chosen (at start/restart and after
each consumption) is a uniformly random cell of the 20×20 grid, chosen
with no reference to the Organism: it always lies inside the grid, but it
may coincide with an Organism cell. -/
theorem C1_amended_food_in_grid (r : Rand) :
    inGrid (getRandomPosition r) := by
  obtain ⟨⟨a, ha⟩, ⟨b, hb⟩⟩ := r
  simp only [getRandomPosition, inGrid, GRID_SIZE]
  refine ⟨Int.ofNat_nonneg a, ?_, Int.ofNat_nonneg b, ?_⟩ <;> exact_mod_cast ‹_›

/-- A concrete playing state for witnesses: initial snake [(5,5)],
heading RIGHT, Food immediately to the right at (6,5). -/
def wState : GameState :=
  { initialState with isPlaying := true, food := (6, 5) }

/-- A concrete playing state for witnesses whose next step hits the tail:
snake [(5,5), (4,5)] heading LEFT, so the new head is the tail cell
(4,5). -/
def cState : GameState :=
  { initialState with snake := [(5, 5), (4, 5)], direction := .LEFT, isPlaying := true }

/-- Claim C3: the self-collision check runs against the pre-move body
before the tail is dropped, so when the Organism has length ≥ 2 and the
new head lands on the cell the tail currently occupies, the tick ends the
game — only `gameOver` and `isPlaying` change. -/
theorem C3_tail_cell_collision (s : GameState) (r : Rand)
    (hd : Position) (rest : List Position)
    (hs : s.snake = hd :: rest) (hr : rest ≠ [])
    (ht : s.snake.getLast? = some (newHeadFor hd s.direction))
    (hp : s.isPlaying = true) (hg : s.gameOver = false) :
    moveSnake s r = { s with gameOver := true, isPlaying := false } := by
  have hmem : newHeadFor hd s.direction ∈ rest := by
    rcases rest with _ | ⟨q, rest2⟩
    · exact absurd rfl hr
    · rw [hs, List.getLast?_cons_cons] at ht
      exact List.mem_of_mem_getLast? ht
  simp [moveSnake, hp, hg, hs, hmem]

/-- Witness for C3: the snake [(5,5), (4,5)] heading LEFT steps onto its
own tail cell (4,5) and the game ends. -/
theorem C3_tail_cell_collision_witness :
    moveSnake cState (0, 0) = { cState with gameOver := true, isPlaying := false } :=
  C3_tail_cell_collision cState (0, 0) (5, 5) [(4, 5)]
    rfl (by decide) rfl rfl rfl

/-- Claim C4: on a non-colliding tick executed while playing, the length
of the Organism grows by 1 exactly when the new head equals the Food
cell (otherwise it is unchanged), and the Score grows by 1 exactly in the
same case. -/
theorem C4_length_and_score (s : GameState) (r : Rand)
    (hd : Position) (rest : List Position)
    (hs : s.snake = hd :: rest)
    (hp : s.isPlaying = true) (hg : s.gameOver = false)
    (hnc : newHeadFor hd s.direction ∉ rest) :
    (moveSnake s r).snake.length
        = s.snake.length + (if newHeadFor hd s.direction = s.food then 1 else 0) ∧
    (moveSnake s r).score
        = s.score + (if newHeadFor hd s.direction = s.food then 1 else 0) := by
  have hguard : (s.gameOver || !s.isPlaying) = false := by rw [hp, hg]; rfl
  by_cases hf : newHeadFor hd s.direction = s.food
  · have hnc2 : s.food ∉ rest := hf ▸ hnc
    simp [moveSnake, hguard, hs, hnc2, hf]
  · simp only [moveSnake, hguard, Bool.false_eq_true, if_false, hs]
    simp only [hnc, hf, if_false]
    constructor
    · simp [List.length_dropLast]
    · rfl

/-- Witness for C4: from a playing state with Food at (6,5) one cell to
the right of the head (5,5), the tick eats the Food: length 1 → 2 and
score 0 → 1. -/
theorem C4_length_and_score_witness :
    (moveSnake wState (0, 0)).snake.length
        = wState.snake.length
          + (if newHeadFor (5, 5) wState.direction = wState.food then 1 else 0) ∧
    (moveSnake wState (0, 0)).score
        = wState.score
          + (if newHeadFor (5, 5) wState.direction = wState.food then 1 else 0) :=
  C4_length_and_score wState (0, 0) (5, 5) [] rfl rfl rfl (by decide)

lemma stepEvent_len (t : GameState) (e : Event)
    (h : t.snake.length = 1 + t.score) :
    (stepEvent t e).snake.length = 1 + (stepEvent t e).score := by
  cases e with
  | tick r =>
    obtain ⟨sn, d, f, go, sc, ip, df⟩ := t
    cases sn with
    | nil =>
      simp only [stepEvent, moveSnake]
      split
      · exact h
      · exact h
    | cons hd rest =>
      simp only [stepEvent, moveSnake]
      split
      · exact h
      · split
        · exact h
        · simp only at h
          split
          · simp only [List.length_cons] at h ⊢
            omega
          · simp only [List.length_dropLast, List.length_cons] at h ⊢
            omega
  | key d =>
    simp only [stepEvent, handleKeyPress]
    split
    · exact h
    · exact h
  | touch d =>
    simp only [stepEvent, handleTouchStart]
    split
    · exact h
    · split
      · exact h
      · exact h
  | reset r => rfl
  | setDiff v r =>
    simp only [stepEvent, handleDifficultyChange]
    split
    · rfl
    · exact h

/-- Claim C5: in every state reachable from a started session by ticks,
direction requests, restarts and difficulty changes, the Organism length
equals the initial length 1 plus the current Score. -/
theorem C5_length_eq_one_plus_score (s : GameState) (r : Rand) (es : List Event) :
    (runEvents (resetGame s r) es).snake.length
      = 1 + (runEvents (resetGame s r) es).score := by
  have general : ∀ (l : List Event) (t : GameState),
      t.snake.length = 1 + t.score →
      (runEvents t l).snake.length = 1 + (runEvents t l).score := by
    intro l
    induction l with
    | nil => intro t ht; exact ht
    | cons e l ih => intro t ht; exact ih (stepEvent t e) (stepEvent_len t e ht)
  exact general es (resetGame s r) rfl

/-- Claim C6: a tick that detects self-collision sets `gameOver`, stops
the clock (`isPlaying := false`, on which the interval effect clears the
timer), and leaves Organism, Food and Score untouched by that tick; and
any tick taken while `gameOver` holds changes nothing at all. -/
theorem C6_collision_freezes :
    (∀ (s : GameState) (r : Rand) (hd : Position) (rest : List Position),
      s.snake = hd :: rest → s.isPlaying = true → s.gameOver = false →
      newHeadFor hd s.direction ∈ rest →
      moveSnake s r = { s with gameOver := true, isPlaying := false }) ∧
    (∀ (s : GameState) (r : Rand), s.gameOver = true → moveSnake s r = s) := by
  constructor
  · intro s r hd rest hs hp hg hmem
    simp [moveSnake, hp, hg, hs, hmem]
  · intro s r hg
    simp [moveSnake, hg]

/-- Witness for C6: the tail-collision state's tick only flips
`gameOver`/`isPlaying`, and a further tick from that frozen state is a
no-op. -/
theorem C6_collision_freezes_witness :
    moveSnake cState (1, 1) = { cState with gameOver := true, isPlaying := false } ∧
    moveSnake { cState with gameOver := true, isPlaying := false } (1, 1)
      = { cState with gameOver := true, isPlaying := false } :=
  ⟨C6_collision_freezes.1 cState (1, 1) (5, 5) [(4, 5)] rfl rfl rfl (by decide),
   C6_collision_freezes.2 { cState with gameOver := true, isPlaying := false } (1, 1) rfl⟩

/-- Claim C9: selecting a difficulty while playing restarts the session —
Score 0, Organism back to the single initial cell, heading back to the
initial RIGHT, fresh Food, still playing — while selecting one while not
playing only records the new difficulty. -/
theorem C9_difficulty_change (s : GameState) (v : Difficulty) (r : Rand) :
    (s.isPlaying = true →
      handleDifficultyChange s v r =
        { s with difficulty := v, snake := INITIAL_SNAKE,
                 direction := INITIAL_DIRECTION, food := getRandomPosition r,
                 gameOver := false, score := 0, isPlaying := true }) ∧
    (s.isPlaying = false →
      handleDifficultyChange s v r = { s with difficulty := v }) := by
  constructor <;> intro h <;> simp [handleDifficultyChange, resetGame, h]

/-- Witness for C9: switching to Hard while playing resets score, snake
and heading; the difficulty sticks. -/
theorem C9_difficulty_change_witness :
    handleDifficultyChange wState .Hard (1, 1) =
      { wState with difficulty := .Hard, snake := INITIAL_SNAKE,
                    direction := INITIAL_DIRECTION, food := getRandomPosition (1, 1),
                    gameOver := false, score := 0, isPlaying := true } :=
  (C9_difficulty_change wState .Hard (1, 1)).1 rfl

end SnakeGame
